import Mathlib

/-!
Verification development for the `obsidian-ai-note-renamer` repository.

Two groups of definitions:
* shallow embeddings of the TypeScript settings code (`src/unnamed/part_000`,
  `src/unnamed/part_001`): platform shell selection helpers and the
  `loadSettings` normalisation of the plugin settings;
* a model of the Rust PTY server (`pty-server`), whose Rust sources
  (`main.rs`, `server.rs`, `pty_session.rs`, `shell.rs`) are not part of the
  repository snapshot — only its README, tests and build scripts are — so the
  server is modelled from the specification text.
-/

/- ===================================================================
   JavaScript string semantics
   =================================================================== -/

/-- JavaScript `String.prototype.trim`, modelled structurally over the
character list (the JS whitespace class is modelled by `Char.isWhitespace`). -/
def jsTrim (s : String) : String :=
  String.mk (((s.data.dropWhile Char.isWhitespace).reverse.dropWhile Char.isWhitespace).reverse)

/-- JavaScript falsiness of a string value: `!s` is true exactly for `""`. -/
def jsFalsyString (s : String) : Bool :=
  s = ""

/- ===================================================================
   Smart Workflow terminal settings (src/unnamed/part_000, settings.ts)
   =================================================================== -/

/-- `WindowsShellType = 'cmd' | 'powershell' | 'wsl' | 'gitbash' | 'custom'`.
Shell types are string literals at runtime, so they are embedded as `String`
with membership predicates for the TypeScript union types. -/
def isWindowsShellType (s : String) : Bool :=
  s = "cmd" || s = "powershell" || s = "wsl" || s = "gitbash" || s = "custom"

/-- `UnixShellType = 'bash' | 'zsh' | 'custom'`. -/
def isUnixShellType (s : String) : Bool :=
  s = "bash" || s = "zsh" || s = "custom"

/-- `PlatformShellConfig`: per-platform default shell type. -/
structure PlatformShellConfig where
  windows : String
  darwin : String
  linux : String

/-- `PlatformCustomShellPaths`: per-platform custom shell path. -/
structure PlatformCustomShellPaths where
  windows : String
  darwin : String
  linux : String

/-- `newInstanceBehavior` union type. -/
inductive NewInstanceBehavior where
  | replaceTab | newTab | newLeftTab | newLeftSplit
  | newRightTab | newRightSplit | newHorizontalSplit | newVerticalSplit | newWindow
deriving DecidableEq

/-- `cursorStyle` union type. -/
inductive CursorStyle where
  | block | underline | bar
deriving DecidableEq

/-- `backgroundImageSize` union type. -/
inductive BackgroundImageSize where
  | cover | contain | auto
deriving DecidableEq

/-- `preferredRenderer` union type. -/
inductive PreferredRenderer where
  | canvas | webgl
deriving DecidableEq

/-- `TerminalSettings` interface; JS numbers are embedded as `Float`,
optional (`?:`) fields as `Option`. -/
structure TerminalSettings where
  platformShells : PlatformShellConfig
  platformCustomShellPaths : PlatformCustomShellPaths
  shellArgs : List String
  autoEnterVaultDirectory : Bool
  newInstanceBehavior : NewInstanceBehavior
  createInstanceNearExistingOnes : Bool
  focusNewInstance : Bool
  lockNewInstance : Bool
  fontSize : Float
  fontFamily : String
  cursorStyle : CursorStyle
  cursorBlink : Bool
  useObsidianTheme : Bool
  backgroundColor : Option String
  foregroundColor : Option String
  backgroundImage : Option String
  backgroundImageOpacity : Option Float
  backgroundImageSize : Option BackgroundImageSize
  backgroundImagePosition : Option String
  enableBlur : Option Bool
  blurAmount : Option Float
  textOpacity : Option Float
  preferredRenderer : PreferredRenderer
  scrollback : Float
  defaultHeight : Float

/-- `DEFAULT_PLATFORM_SHELLS`. -/
def DEFAULT_PLATFORM_SHELLS : PlatformShellConfig :=
  { windows := "powershell", darwin := "zsh", linux := "bash" }

/-- `DEFAULT_PLATFORM_CUSTOM_SHELL_PATHS`. -/
def DEFAULT_PLATFORM_CUSTOM_SHELL_PATHS : PlatformCustomShellPaths :=
  { windows := "", darwin := "", linux := "" }

/-- `DEFAULT_TERMINAL_SETTINGS`. -/
def DEFAULT_TERMINAL_SETTINGS : TerminalSettings :=
  { platformShells := DEFAULT_PLATFORM_SHELLS
    platformCustomShellPaths := DEFAULT_PLATFORM_CUSTOM_SHELL_PATHS
    shellArgs := []
    autoEnterVaultDirectory := true
    newInstanceBehavior := .newHorizontalSplit
    createInstanceNearExistingOnes := true
    focusNewInstance := true
    lockNewInstance := false
    fontSize := 14
    fontFamily := "Consolas, \"Courier New\", monospace"
    cursorStyle := .block
    cursorBlink := true
    useObsidianTheme := true
    backgroundColor := none
    foregroundColor := none
    backgroundImage := none
    backgroundImageOpacity := some 0.5
    backgroundImageSize := some .cover
    backgroundImagePosition := some "center"
    enableBlur := some false
    blurAmount := some 10
    textOpacity := some 1.0
    preferredRenderer := .canvas
    scrollback := 1000
    defaultHeight := 300 }

/-- `getCurrentPlatformShell`; `process.platform` is made an explicit
`platform` argument (the code branches on `'win32'`, `'darwin'`, else). -/
def getCurrentPlatformShell (platform : String) (settings : TerminalSettings) : String :=
  if platform = "win32" then
    settings.platformShells.windows
  else if platform = "darwin" then
    settings.platformShells.darwin
  else
    settings.platformShells.linux

/-- `setCurrentPlatformShell`; the TypeScript function mutates `settings` in
place, embedded as returning the updated record.  The `as WindowsShellType` /
`as UnixShellType` casts are compile-time only and perform no runtime
conversion, so the stored value is exactly the `shell` string passed in. -/
def setCurrentPlatformShell (platform : String) (settings : TerminalSettings)
    (shell : String) : TerminalSettings :=
  if platform = "win32" then
    { settings with platformShells := { settings.platformShells with windows := shell } }
  else if platform = "darwin" then
    { settings with platformShells := { settings.platformShells with darwin := shell } }
  else
    { settings with platformShells := { settings.platformShells with linux := shell } }

/-- `getCurrentPlatformCustomShellPath`. -/
def getCurrentPlatformCustomShellPath (platform : String) (settings : TerminalSettings) : String :=
  if platform = "win32" then
    settings.platformCustomShellPaths.windows
  else if platform = "darwin" then
    settings.platformCustomShellPaths.darwin
  else
    settings.platformCustomShellPaths.linux

/-- `setCurrentPlatformCustomShellPath`, embedded as returning the updated
record. -/
def setCurrentPlatformCustomShellPath (platform : String) (settings : TerminalSettings)
    (path : String) : TerminalSettings :=
  if platform = "win32" then
    { settings with platformCustomShellPaths :=
        { settings.platformCustomShellPaths with windows := path } }
  else if platform = "darwin" then
    { settings with platformCustomShellPaths :=
        { settings.platformCustomShellPaths with darwin := path } }
  else
    { settings with platformCustomShellPaths :=
        { settings.platformCustomShellPaths with linux := path } }

/- ===================================================================
   AI File Namer settings (src/unnamed/part_001 and the `loadSettings`
   method of the plugin main class in src/unnamed/part_000)
   =================================================================== -/

/-- `APIConfig` interface.  `promptTemplate` is declared `string` in
TypeScript, but stored plugin data may lack the property (it is read back
from JSON), so the runtime value is embedded as `Option String`
(`none` = the property is absent / `undefined`).  JS numbers are `Float`. -/
structure APIConfig where
  id : String
  name : String
  endpoint : String
  apiKey : String
  model : String
  temperature : Float
  maxTokens : Float
  topP : Float
  promptTemplate : Option String

/-- `DEFAULT_PROMPT_TEMPLATE` from `settings.ts` (braces of the template
placeholders are written with `\x7b`/`\x7d` escapes). -/
def DEFAULT_PROMPT_TEMPLATE : String :=
  "Generate a concise and accurate filename for the following note content.\n\x7b\x7b#if currentFileName\x7d\x7d\nCurrent filename: \x7b\x7bcurrentFileName\x7d\x7d\nPlease improve upon this filename to create a more accurate one.\n\x7b\x7b/if\x7d\x7d\n\x7b\x7b#if directoryNamingStyle\x7d\x7d\nReference naming style from other files in the directory:\n\x7b\x7bdirectoryNamingStyle\x7d\x7d\n\x7b\x7b/if\x7d\x7d\n\nNote content:\n\x7b\x7bcontent\x7d\x7d\n\nRequirements:\n1. The filename should be concise and clear, no more than 10 characters\n2. Accurately summarize the core content of the note\n3. The language of the filename should match the primary language of the note content\n4. Use Chinese or English, avoid special characters\n5. Return only the filename itself, do not include the .md extension\n6. Do not wrap the filename with quotes, angle brackets, or other symbols"

/-- `AIFileNamerSettings` interface (the in-memory settings after the
`Object.assign` merge, where every top-level field is present). -/
structure AIFileNamerSettings where
  configs : List APIConfig
  activeConfigId : String
  defaultPromptTemplate : String
  useCurrentFileNameContext : Bool
  analyzeDirectoryNamingStyle : Bool
  debugMode : Bool
  timeout : Float

/-- `DEFAULT_SETTINGS` from `settings.ts`. -/
def DEFAULT_SETTINGS : AIFileNamerSettings :=
  { configs :=
      [ { id := "default"
          name := "默认配置"
          endpoint := "https://api.openai.com/v1/chat/completions"
          apiKey := ""
          model := "gpt-3.5-turbo"
          temperature := 0.7
          maxTokens := 100
          topP := 1.0
          promptTemplate := some DEFAULT_PROMPT_TEMPLATE } ]
    activeConfigId := "default"
    defaultPromptTemplate := DEFAULT_PROMPT_TEMPLATE
    useCurrentFileNameContext := true
    analyzeDirectoryNamingStyle := false
    debugMode := false
    timeout := 15000 }

/-- Stored plugin data as returned by `loadData()`: JSON read back from disk
may be partial, so every top-level field is optional (`none` = the property
is missing and is not copied by `Object.assign`). -/
structure StoredPluginData where
  configs : Option (List APIConfig)
  activeConfigId : Option String
  defaultPromptTemplate : Option String
  useCurrentFileNameContext : Option Bool
  analyzeDirectoryNamingStyle : Option Bool
  debugMode : Option Bool
  timeout : Option Float

/-- `Object.assign(\x7b\x7d, DEFAULT_SETTINGS, loadedData)`: shallow merge
of the stored data over the defaults (`loadData()` returning `null`
is `none`). -/
def mergeLoadedData : Option StoredPluginData → AIFileNamerSettings
  | none => DEFAULT_SETTINGS
  | some d =>
    { configs := d.configs.getD DEFAULT_SETTINGS.configs
      activeConfigId := d.activeConfigId.getD DEFAULT_SETTINGS.activeConfigId
      defaultPromptTemplate := d.defaultPromptTemplate.getD DEFAULT_SETTINGS.defaultPromptTemplate
      useCurrentFileNameContext :=
        d.useCurrentFileNameContext.getD DEFAULT_SETTINGS.useCurrentFileNameContext
      analyzeDirectoryNamingStyle :=
        d.analyzeDirectoryNamingStyle.getD DEFAULT_SETTINGS.analyzeDirectoryNamingStyle
      debugMode := d.debugMode.getD DEFAULT_SETTINGS.debugMode
      timeout := d.timeout.getD DEFAULT_SETTINGS.timeout }

/-- The test `!s || s.trim() === ''` applied to a present string value. -/
def blankString (s : String) : Bool :=
  jsFalsyString s || jsTrim s = ""

/-- The test `!config.promptTemplate || config.promptTemplate.trim() === ''`
on a possibly-absent string (`!undefined` is true). -/
def blankOptString : Option String → Bool
  | none => true
  | some s => blankString s

/-- `loadSettings` from the plugin main class: merge loaded data over the
defaults, replace a missing/empty/whitespace-only `defaultPromptTemplate`
with the code default, then replace every missing/empty/whitespace-only
per-config `promptTemplate` with the (already repaired) default template.
The trailing `saveSettings()` call persists the repaired value and does not
change it, so it is not modelled. -/
def loadSettings (loadedData : Option StoredPluginData) : AIFileNamerSettings :=
  let settings := mergeLoadedData loadedData
  let settings :=
    if blankString settings.defaultPromptTemplate then
      { settings with defaultPromptTemplate := DEFAULT_SETTINGS.defaultPromptTemplate }
    else settings
  { settings with
      configs := settings.configs.map fun config =>
        if blankOptString config.promptTemplate then
          { config with promptTemplate := some settings.defaultPromptTemplate }
        else config }

/-- An `APIConfig` whose `promptTemplate` is present and non-empty after
trimming (the guarantee `loadSettings` is meant to establish). -/
def hasNonBlankTemplate (c : APIConfig) : Bool :=
  match c.promptTemplate with
  | none => false
  | some t => !(jsTrim t = "")

/- ===================================================================
   PTY server model.  The Rust sources (pty-server/src/main.rs, server.rs,
   pty_session.rs, shell.rs) are missing from the repository snapshot, so
   everything below is modelled from the specification text (spec sections
   4.1-4.5, 6, 7 and the pty-server README).
   =================================================================== -/

/-- Modelled from the spec: JSON values for the wire protocol handled by
the missing ProtocolCodec (pty-server/src/pty_session.rs). -/
inductive Json where
  | null
  | bool (b : Bool)
  | num (n : Int)
  | str (s : String)
  | arr (elems : List Json)
  | obj (fields : List (String × Json))

/-- Modelled from the spec: field lookup in a decoded JSON object
(first binding wins; unknown fields are simply never looked at). -/
def getField (fields : List (String × Json)) (key : String) : Option Json :=
  match fields with
  | [] => none
  | (k, v) :: rest => if k = key then some v else getField rest key

/-- Modelled from the spec: the two client→server message shapes. -/
inductive ClientMsg where
  | input (data : String)
  | resize (cols rows : Int)
deriving DecidableEq

/-- Modelled from the spec: the two server→client message shapes. -/
inductive ServerMsg where
  | output (data : String)
  | exit (code : Int)
deriving DecidableEq

/-- Modelled from the spec: permissive decoding of one socket frame by the
missing ProtocolCodec.  The argument is `none` when the frame text failed to
parse as JSON; a parsed frame lacking a recognized `type` discriminant (or
with ill-typed payload fields) decodes to `none` as well.  Unknown object
fields are ignored. -/
def decodeClientMsg : Option Json → Option ClientMsg
  | none => none
  | some (Json.obj fields) =>
    match getField fields "type" with
    | some (Json.str "input") =>
      match getField fields "data" with
      | some (Json.str d) => some (ClientMsg.input d)
      | _ => none
    | some (Json.str "resize") =>
      match getField fields "cols", getField fields "rows" with
      | some (Json.num c), some (Json.num r) => some (ClientMsg.resize c r)
      | _, _ => none
    | _ => none
  | some _ => none

/-- Modelled from the spec: host operating system flavour for the missing
shell resolver (pty-server/src/shell.rs). -/
inductive HostOs where
  | windows
  | unixLike
deriving DecidableEq

/-- Modelled from the spec: shell resolution failure. -/
inductive ShellResolutionError where
  | noShellAvailable
deriving DecidableEq

/-- Modelled from the spec: the fixed ordered candidate list of the missing
shell resolver.  `envShell` is the Unix `$SHELL` environment variable
(`none` when unset); the Windows list never consults the environment. -/
def shellCandidates (os : HostOs) (envShell : Option String) : List String :=
  match os with
  | HostOs.windows => ["pwsh.exe", "powershell.exe", "cmd.exe"]
  | HostOs.unixLike =>
    (match envShell with
     | some sh => [sh]
     | none => []) ++ ["/bin/bash", "/bin/zsh", "/bin/sh"]

/-- Modelled from the spec: try candidates in order, first success wins. -/
def firstAvailable (available : String → Bool) :
    List String → Except ShellResolutionError String
  | [] => Except.error ShellResolutionError.noShellAvailable
  | c :: rest => if available c then Except.ok c else firstAvailable available rest

/-- Modelled from the spec: shell resolution for the missing
pty-server/src/shell.rs, parameterized by the host OS, the environment
default shell, and a filesystem predicate `available` telling whether a
candidate exists and is executable. -/
def resolveShell (os : HostOs) (envShell : Option String)
    (available : String → Bool) : Except ShellResolutionError String :=
  firstAvailable available (shellCandidates os envShell)

/-- Modelled from the spec: observable startup events of the missing
pty-server/src/main.rs, in order of occurrence. -/
inductive StartEvent where
  | stdoutLine (j : Json)
  | stderrLine (msg : String)
  | acceptConn (n : Nat)

/-- Modelled from the spec: the single JSON handshake line
`\x7b"port": <number>\x7d` announcing the bound port. -/
def portLine (p : Nat) : Json :=
  Json.obj [("port", Json.num (Int.ofNat p))]

/-- Is a startup event a standard-output line? -/
def isStdoutEvent : StartEvent → Bool
  | StartEvent.stdoutLine _ => true
  | _ => false

/-- Is a startup event a standard-error line? -/
def isStderrEvent : StartEvent → Bool
  | StartEvent.stderrLine _ => true
  | _ => false

/-- Modelled from the spec: the startup behaviour of the missing
pty-server/src/main.rs.  `bind` models the OS bind call: it maps the
requested port to `some actualPort` on success and `none` on failure (port
in use, permission denied).  `accepted` is the number of connections the
listener goes on to accept.  The result is the ordered list of observable
startup events together with `some exitCode` when the process exits. -/
def serverStartup (requestedPort : Nat) (bind : Nat → Option Nat)
    (accepted : Nat) : List StartEvent × Option Nat :=
  match bind requestedPort with
  | some p =>
    (StartEvent.stdoutLine (portLine p) ::
      (List.range accepted).map StartEvent.acceptConn, none)
  | none =>
    ([StartEvent.stderrLine "failed to bind listening socket"], some 1)

/-- Modelled from the spec: the error kinds of the error-handling table
(spec section 7). -/
inductive ErrorKind where
  | bindFailure
  | shellResolutionFailure
  | spawnFailure
  | ptyIoError
  | protocolDecodeError
  | webSocketError
deriving DecidableEq

/-- Modelled from the spec: whether an error kind is process-fatal
(exit non-zero) rather than isolated to one session or one message. -/
def isFatal : ErrorKind → Bool
  | ErrorKind.bindFailure => true
  | _ => false

/-- Modelled from the spec: session lifecycle states (spec section 4.3). -/
inductive Phase where
  | starting
  | running
  | closing
  | closed
deriving DecidableEq

/-- Modelled from the spec: the observable state of one Session of the
missing pty-server/src/pty_session.rs.  Resource bookkeeping (`childAlive`,
`ptyReleased`, `socketOpen`, `inRegistry`) carries release counters so that
double releases are observable in the model. -/
structure SessionState where
  phase : Phase
  cols : Int
  rows : Int
  ptyWrites : List String
  sent : List ServerMsg
  socketOpen : Bool
  childAlive : Bool
  ptyReleased : Bool
  inRegistry : Bool
  childKillCount : Nat
  ptyReleaseCount : Nat
  socketCloseCount : Nat
deriving DecidableEq

/-- Modelled from the spec: idempotent cleanup (spec section 4.3,
`Closing → Closed`): forcibly terminate the child if still alive, release
the PTY handle if not yet released, close the socket if still open, drop
the registry entry.  Each action is guarded by its resource flag, and the
counters record how often each release actually happened. -/
def sessionCleanup (s : SessionState) : SessionState :=
  { s with
    phase := Phase.closed
    childAlive := false
    childKillCount := if s.childAlive then s.childKillCount + 1 else s.childKillCount
    ptyReleased := true
    ptyReleaseCount := if s.ptyReleased then s.ptyReleaseCount else s.ptyReleaseCount + 1
    socketOpen := false
    socketCloseCount := if s.socketOpen then s.socketCloseCount + 1 else s.socketCloseCount
    inRegistry := false }

/-- Modelled from the spec: the events a running session reacts to.
`frame` carries the decoded JSON of one socket frame (`none` = the frame
text was not valid JSON). -/
inductive SessionEvent where
  | frame (f : Option Json)
  | ptyOutput (data : String)
  | childExit (code : Int)
  | clientClose
  | ptyIoError

/-- Is the event one of the termination triggers of spec section 4.3? -/
def isTermEvent : SessionEvent → Bool
  | SessionEvent.childExit _ => true
  | SessionEvent.clientClose => true
  | SessionEvent.ptyIoError => true
  | _ => false

/-- Modelled from the spec: one step of the session state machine of the
missing pty-server/src/pty_session.rs (spec sections 4.3 and 4.4).  In
`Running`: decodable `input` frames append their bytes to the PTY, `resize`
frames update the dimensions, undecodable frames are dropped; non-empty PTY
reads are forwarded as `output`; `childExit c` sends `exit c` (socket still
open) and cleans up; a client close or PTY I/O error goes straight to
cleanup without an `exit` message.  Outside `Running` every event is
ignored (a closed session is never reused). -/
def sessionStep (s : SessionState) (e : SessionEvent) : SessionState :=
  match s.phase with
  | Phase.running =>
    match e with
    | SessionEvent.frame f =>
      match decodeClientMsg f with
      | some (ClientMsg.input d) => { s with ptyWrites := s.ptyWrites ++ [d] }
      | some (ClientMsg.resize c r) => { s with cols := c, rows := r }
      | none => s
    | SessionEvent.ptyOutput d =>
      if d = "" then s else { s with sent := s.sent ++ [ServerMsg.output d] }
    | SessionEvent.childExit c =>
      sessionCleanup { s with
        phase := Phase.closing
        sent := if s.socketOpen then s.sent ++ [ServerMsg.exit c] else s.sent }
    | SessionEvent.clientClose =>
      sessionCleanup { s with phase := Phase.closing, socketOpen := false }
    | SessionEvent.ptyIoError =>
      sessionCleanup { s with phase := Phase.closing }
  | _ => s

/-- Modelled from the spec: a session processing a sequence of events. -/
def runSession (s : SessionState) (evs : List SessionEvent) : SessionState :=
  evs.foldl sessionStep s

/-- Is a server→client message an `exit` message? -/
def isExitMsg : ServerMsg → Bool
  | ServerMsg.exit _ => true
  | _ => false

/-- How many `exit` messages a sent-message log contains. -/
def countExits (l : List ServerMsg) : Nat :=
  (l.filter isExitMsg).length

/-- Modelled from the spec: the listener/registry state of the missing
pty-server/src/server.rs.  `nextId` is the fresh-id counter; the registry
maps session ids to their lifecycle phase. -/
structure ServerState where
  nextId : Nat
  registry : List (Nat × Phase)
deriving DecidableEq

/-- Modelled from the spec: registry state at server start. -/
def serverStart : ServerState :=
  { nextId := 0, registry := [] }

/-- Modelled from the spec: the registry-relevant events: a WebSocket
connection is accepted (and a shell is resolvable, so the new session
reaches `Running`), or a session's socket closes and its cleanup removes
the registry entry. -/
inductive ServerEvent where
  | connect
  | socketClosed (id : Nat)

/-- Modelled from the spec: one registry transition.  `connect` inserts a
fresh id in `Running`; `socketClosed id` removes the entry for `id`. -/
def serverStep (s : ServerState) : ServerEvent → ServerState
  | ServerEvent.connect =>
    { nextId := s.nextId + 1, registry := s.registry ++ [(s.nextId, Phase.running)] }
  | ServerEvent.socketClosed id =>
    { s with registry := s.registry.filter (fun e => e.1 ≠ id) }

/-- Modelled from the spec: the registry after a sequence of events. -/
def runServer (s : ServerState) (evs : List ServerEvent) : ServerState :=
  evs.foldl serverStep s

/- ===================================================================
   Helper lemmas
   =================================================================== -/

set_option maxRecDepth 8000 in
/-- The default prompt template is non-empty after trimming. -/
theorem jsTrim_default_template_ne_empty : jsTrim DEFAULT_PROMPT_TEMPLATE ≠ "" := by
  decide

/-- A string that fails the blank test is non-empty after trimming. -/
theorem jsTrim_ne_empty_of_not_blank {s : String} (h : blankString s = false) :
    jsTrim s ≠ "" := by
  intro hEq
  simp [blankString, jsFalsyString, hEq] at h

/-- The repaired default template is always non-empty after trimming. -/
theorem repaired_default_nonblank (s : String) :
    jsTrim (if blankString s then DEFAULT_SETTINGS.defaultPromptTemplate else s) ≠ "" := by
  by_cases hb : blankString s
  · simpa [hb, DEFAULT_SETTINGS] using jsTrim_default_template_ne_empty
  · simpa [hb] using jsTrim_ne_empty_of_not_blank (by simpa using hb)

/-- Repairing one config against a non-blank default yields a config with a
present, non-blank template. -/
theorem repaired_config_nonblank (dflt : String) (c : APIConfig) (hd : jsTrim dflt ≠ "") :
    hasNonBlankTemplate
      (if blankOptString c.promptTemplate then { c with promptTemplate := some dflt }
       else c) = true := by
  by_cases hb : blankOptString c.promptTemplate
  · simp [hb, hasNonBlankTemplate, hd]
  · cases hc : c.promptTemplate with
    | none => simp [blankOptString, hc] at hb
    | some t =>
      have ht : blankString t = false := by
        simpa [blankOptString, hc] using hb
      simp [blankOptString, hc, ht, hasNonBlankTemplate, jsTrim_ne_empty_of_not_blank ht]

/-- Appending a non-exit message does not change the exit count. -/
theorem countExits_append_output (l : List ServerMsg) (d : String) :
    countExits (l ++ [ServerMsg.output d]) = countExits l := by
  simp [countExits, List.filter_append, isExitMsg]

/-- Appending an exit message raises the exit count by one. -/
theorem countExits_append_exit (l : List ServerMsg) (c : Int) :
    countExits (l ++ [ServerMsg.exit c]) = countExits l + 1 := by
  simp [countExits, List.filter_append, isExitMsg]

/-- A non-termination event keeps a running session running, keeps its
socket state, and adds no exit message. -/
theorem sessionStep_nonterm (s : SessionState) (e : SessionEvent)
    (hrun : s.phase = Phase.running) (hterm : isTermEvent e = false) :
    (sessionStep s e).phase = Phase.running ∧
    (sessionStep s e).socketOpen = s.socketOpen ∧
    countExits (sessionStep s e).sent = countExits s.sent := by
  unfold sessionStep
  rw [hrun]
  cases e with
  | frame f =>
    cases hdec : decodeClientMsg f with
    | none => simp [hdec, hrun]
    | some m => cases m <;> simp [hdec, hrun]
  | ptyOutput d =>
    by_cases hd : d = "" <;> simp [hd, hrun, countExits_append_output]
  | childExit c => simp [isTermEvent] at hterm
  | clientClose => simp [isTermEvent] at hterm
  | ptyIoError => simp [isTermEvent] at hterm

/-- A run of non-termination events keeps a running session running, keeps
its socket state, and adds no exit message. -/
theorem runSession_nonterm (evs : List SessionEvent) (s : SessionState)
    (hrun : s.phase = Phase.running) (hterm : ∀ e ∈ evs, isTermEvent e = false) :
    (runSession s evs).phase = Phase.running ∧
    (runSession s evs).socketOpen = s.socketOpen ∧
    countExits (runSession s evs).sent = countExits s.sent := by
  induction evs generalizing s with
  | nil => exact ⟨hrun, rfl, rfl⟩
  | cons e rest ih =>
    have h1 := sessionStep_nonterm s e hrun (hterm e (List.mem_cons_self e rest))
    have h2 := ih (sessionStep s e) h1.1 (fun x hx => hterm x (List.mem_cons_of_mem e hx))
    refine ⟨h2.1, ?_, ?_⟩
    · rw [runSession, List.foldl_cons, ← runSession]
      rw [h2.2.1, h1.2.1]
    · rw [runSession, List.foldl_cons, ← runSession]
      rw [h2.2.2, h1.2.2]

/-- A closed session ignores every further event. -/
theorem runSession_closed (evs : List SessionEvent) (s : SessionState)
    (h : s.phase = Phase.closed) : runSession s evs = s := by
  induction evs with
  | nil => rfl
  | cons e rest ih =>
    have hstep : sessionStep s e = s := by
      unfold sessionStep
      rw [h]
    rw [runSession, List.foldl_cons, ← runSession, hstep, ih]

/-- Effect of a child-exit event on a running session with an open socket:
the exit message is appended last, the socket closes, the session is
closed. -/
theorem sessionStep_childExit (s : SessionState) (c : Int)
    (hrun : s.phase = Phase.running) (hopen : s.socketOpen = true) :
    (sessionStep s (SessionEvent.childExit c)).sent = s.sent ++ [ServerMsg.exit c] ∧
    (sessionStep s (SessionEvent.childExit c)).phase = Phase.closed ∧
    (sessionStep s (SessionEvent.childExit c)).socketOpen = false := by
  unfold sessionStep sessionCleanup
  rw [hrun]
  simp [hopen]

/-- Effect of the client closing the socket on a running session: no
message is sent, the session is closed. -/
theorem sessionStep_clientClose (s : SessionState)
    (hrun : s.phase = Phase.running) :
    (sessionStep s SessionEvent.clientClose).sent = s.sent ∧
    (sessionStep s SessionEvent.clientClose).phase = Phase.closed ∧
    (sessionStep s SessionEvent.clientClose).socketOpen = false := by
  unfold sessionStep sessionCleanup
  rw [hrun]
  simp

/-- The ids currently present in the registry. -/
def registryIds (s : ServerState) : List Nat :=
  s.registry.map Prod.fst

/-- One registry transition preserves the freshness invariant: ids are
distinct and below the fresh-id counter. -/
theorem serverStep_inv (s : ServerState) (e : ServerEvent)
    (h1 : (registryIds s).Nodup) (h2 : ∀ id ∈ registryIds s, id < s.nextId) :
    (registryIds (serverStep s e)).Nodup ∧
    ∀ id ∈ registryIds (serverStep s e), id < (serverStep s e).nextId := by
  cases e with
  | connect =>
    constructor
    · simp only [serverStep, registryIds, List.map_append, List.map_cons, List.map_nil]
      rw [List.nodup_append]
      refine ⟨h1, List.nodup_singleton _, ?_⟩
      intro a ha hb
      have := h2 a (by simpa [registryIds] using ha)
      simp at hb
      omega
    · intro id hid
      simp only [serverStep, registryIds, List.map_append, List.map_cons, List.map_nil,
        List.mem_append, List.mem_singleton] at hid ⊢
      rcases hid with h | h
      · have := h2 id (by simpa [registryIds] using h)
        omega
      · omega
  | socketClosed i =>
    constructor
    · exact List.Nodup.sublist (List.Sublist.map _ (List.filter_sublist _)) h1
    · intro id hid
      simp only [serverStep]
      simp only [serverStep, registryIds, List.mem_map] at hid
      rcases hid with ⟨p, hp, rfl⟩
      exact h2 p.1 (List.mem_map_of_mem _ (List.mem_of_mem_filter hp))

/-- The freshness invariant holds in every state reachable from server
start: every session id is inserted at most once. -/
theorem runServer_inv (evs : List ServerEvent) (s : ServerState)
    (h1 : (registryIds s).Nodup) (h2 : ∀ id ∈ registryIds s, id < s.nextId) :
    (registryIds (runServer s evs)).Nodup ∧
    ∀ id ∈ registryIds (runServer s evs), id < (runServer s evs).nextId := by
  induction evs generalizing s with
  | nil => exact ⟨h1, h2⟩
  | cons e rest ih =>
    have h := serverStep_inv s e h1 h2
    rw [runServer, List.foldl_cons, ← runServer]
    exact ih (serverStep s e) h.1 h.2

/-- `n` accepted connections append `n` fresh running sessions. -/
theorem runServer_connects (n : Nat) (k : Nat) (reg : List (Nat × Phase)) :
    runServer { nextId := k, registry := reg } (List.replicate n ServerEvent.connect) =
      { nextId := k + n,
        registry := reg ++ (List.range' k n).map (fun i => (i, Phase.running)) } := by
  induction n generalizing k reg with
  | zero => simp [runServer, List.range']
  | succ n ih =>
    rw [List.replicate_succ, runServer, List.foldl_cons, ← runServer]
    have hstep : serverStep { nextId := k, registry := reg } ServerEvent.connect =
        { nextId := k + 1, registry := reg ++ [(k, Phase.running)] } := rfl
    rw [hstep, ih]
    rw [List.range'_succ]
    simp [List.append_assoc]
    omega

/-- Closing the sockets of all sessions `k, k+1, …, k+n-1` empties a
registry that holds exactly those sessions. -/
theorem runServer_close_all (n : Nat) (k m : Nat) :
    runServer
      { nextId := m, registry := (List.range' k n).map (fun i => (i, Phase.running)) }
      ((List.range' k n).map ServerEvent.socketClosed) =
      { nextId := m, registry := [] } := by
  induction n generalizing k with
  | zero => simp [runServer, List.range']
  | succ n ih =>
    rw [List.range'_succ]
    simp only [List.map_cons]
    rw [runServer, List.foldl_cons, ← runServer]
    have hfilter :
        (((k, Phase.running) :: (List.range' (k + 1) n).map (fun i => (i, Phase.running))).filter
          (fun e => e.1 ≠ k)) = (List.range' (k + 1) n).map (fun i => (i, Phase.running)) := by
      rw [List.filter_cons]
      norm_num
      intro a b x hx1 hx2 hxa hb
      omega
    have hstep : serverStep
        { nextId := m,
          registry := ((k, Phase.running) :: (List.range' (k + 1) n).map (fun i => (i, Phase.running))) }
        (ServerEvent.socketClosed k) =
        { nextId := m, registry := (List.range' (k + 1) n).map (fun i => (i, Phase.running)) } := by
      simp only [serverStep]
      rw [hfilter]
    rw [hstep, ih]

/- ===================================================================
   Claim theorems
   =================================================================== -/

/-- C9: for every `TerminalSettings` value, every shell type valid for the
current platform, and every path string, `setCurrentPlatformShell` followed
by `getCurrentPlatformShell` returns exactly the shell that was set, and
`setCurrentPlatformCustomShellPath` followed by
`getCurrentPlatformCustomShellPath` returns exactly the path that was set,
on every platform (`win32`, `darwin`, other). -/
theorem claim_C9_platform_roundtrip (platform : String) (settings : TerminalSettings)
    (shell path : String)
    (hvalid : (if platform = "win32" then isWindowsShellType shell
               else isUnixShellType shell) = true) :
    getCurrentPlatformShell platform (setCurrentPlatformShell platform settings shell) = shell ∧
    getCurrentPlatformCustomShellPath platform
      (setCurrentPlatformCustomShellPath platform settings path) = path := by
  unfold getCurrentPlatformShell setCurrentPlatformShell
    getCurrentPlatformCustomShellPath setCurrentPlatformCustomShellPath
  by_cases h1 : platform = "win32" <;> by_cases h2 : platform = "darwin" <;> simp [h1, h2]

/-- C9 witness: the round trip at a concrete platform, shell and path. -/
theorem claim_C9_platform_roundtrip_witness :
    ((if ("darwin" : String) = "win32" then isWindowsShellType "zsh"
      else isUnixShellType "zsh") = true) ∧
    (getCurrentPlatformShell "darwin"
        (setCurrentPlatformShell "darwin" DEFAULT_TERMINAL_SETTINGS "zsh") = "zsh" ∧
     getCurrentPlatformCustomShellPath "darwin"
        (setCurrentPlatformCustomShellPath "darwin" DEFAULT_TERMINAL_SETTINGS
          "/usr/local/bin/fish") = "/usr/local/bin/fish") :=
  ⟨by decide,
   claim_C9_platform_roundtrip "darwin" DEFAULT_TERMINAL_SETTINGS "zsh" "/usr/local/bin/fish"
     (by decide)⟩

set_option maxRecDepth 8000 in
/-- C10: after `loadSettings`, for every loaded (possibly partial) stored
data, `defaultPromptTemplate` is non-empty after trimming and every config
in `configs` has a present, non-empty-after-trimming `promptTemplate`
(missing, empty or whitespace-only templates were replaced by the default
template). -/
theorem claim_C10_load_settings_nonblank (d : Option StoredPluginData) :
    jsTrim (loadSettings d).defaultPromptTemplate ≠ "" ∧
    (loadSettings d).configs.all hasNonBlankTemplate = true := by
  constructor
  · show jsTrim (loadSettings d).defaultPromptTemplate ≠ ""
    unfold loadSettings
    by_cases hb : blankString (mergeLoadedData d).defaultPromptTemplate <;>
      simpa [hb] using repaired_default_nonblank (mergeLoadedData d).defaultPromptTemplate
  · unfold loadSettings
    by_cases hb : blankString (mergeLoadedData d).defaultPromptTemplate <;>
      · simp only [hb, if_true, if_false, List.all_eq_true, List.mem_map]
        rintro x ⟨c, hc, rfl⟩
        first
        | exact repaired_config_nonblank _ c jsTrim_default_template_ne_empty
        | exact repaired_config_nonblank _ c
            (jsTrim_ne_empty_of_not_blank (by simpa using hb))

/-- C3: shell resolution tries the fixed ordered candidate list (Windows:
PowerShell 7+, Windows PowerShell 5.x, Command Prompt; Unix-like: the
environment-configured default shell, then bash, zsh, sh) and returns the
first candidate that exists and is executable; if every candidate fails it
returns a `NoShellAvailable` error. -/
theorem claim_C3_shell_resolution_first_match :
    (∀ env, shellCandidates HostOs.windows env = ["pwsh.exe", "powershell.exe", "cmd.exe"]) ∧
    (∀ sh, shellCandidates HostOs.unixLike (some sh) = [sh, "/bin/bash", "/bin/zsh", "/bin/sh"]) ∧
    (shellCandidates HostOs.unixLike none = ["/bin/bash", "/bin/zsh", "/bin/sh"]) ∧
    ∀ (os : HostOs) (env : Option String) (available : String → Bool),
      resolveShell os env available =
        match (shellCandidates os env).find? available with
        | some c => Except.ok c
        | none => Except.error ShellResolutionError.noShellAvailable := by
  refine ⟨fun _ => rfl, fun _ => rfl, rfl, fun os env available => ?_⟩
  unfold resolveShell
  induction shellCandidates os env with
  | nil => rfl
  | cons c rest ih =>
    by_cases h : available c
    · simp [firstAvailable, h, List.find?_cons_of_pos]
    · simp only [firstAvailable, h, if_false, Bool.false_eq_true,
        List.find?_cons_of_neg _ (by simpa using h)]
      exact ih

/-- C8: shell resolution is deterministic and side-effect free: it depends
only on the host OS, the environment shell and the values of the (mocked)
filesystem predicate on the candidate list, so two invocations over
filesystem states that agree on the candidates return the same result. -/
theorem claim_C8_shell_resolution_deterministic (os : HostOs) (env : Option String)
    (fs1 fs2 : String → Bool)
    (h : ∀ c ∈ shellCandidates os env, fs1 c = fs2 c) :
    resolveShell os env fs1 = resolveShell os env fs2 := by
  unfold resolveShell
  have key : ∀ l : List String, (∀ c ∈ l, fs1 c = fs2 c) →
      firstAvailable fs1 l = firstAvailable fs2 l := by
    intro l
    induction l with
    | nil => intro _; rfl
    | cons c rest ih =>
      intro hl
      have hc : fs1 c = fs2 c := hl c (List.mem_cons_self c rest)
      have hrest := ih (fun x hx => hl x (List.mem_cons_of_mem c hx))
      simp only [firstAvailable, hc, hrest]
  exact key _ h

/-- C8 witness: two filesystem predicates that agree on the Unix candidate
list but differ elsewhere resolve identically. -/
theorem claim_C8_shell_resolution_deterministic_witness :
    (∀ c ∈ shellCandidates HostOs.unixLike none,
      (fun s => s = "/bin/zsh") c = (fun s => s = "/bin/zsh" || s = "/sbin/nologin") c) ∧
    resolveShell HostOs.unixLike none (fun s => s = "/bin/zsh") =
      resolveShell HostOs.unixLike none (fun s => s = "/bin/zsh" || s = "/sbin/nologin") :=
  ⟨by decide,
   claim_C8_shell_resolution_deterministic HostOs.unixLike none _ _ (by decide)⟩

/-- C5: session cleanup is idempotent: running the cleanup procedure twice
from a `Closing` session yields the same state as running it once, and the
second run releases no resource again (all release counters are
unchanged). -/
theorem claim_C5_cleanup_idempotent (s : SessionState) (hphase : s.phase = Phase.closing) :
    sessionCleanup (sessionCleanup s) = sessionCleanup s ∧
    (sessionCleanup (sessionCleanup s)).childKillCount = (sessionCleanup s).childKillCount ∧
    (sessionCleanup (sessionCleanup s)).ptyReleaseCount = (sessionCleanup s).ptyReleaseCount ∧
    (sessionCleanup (sessionCleanup s)).socketCloseCount = (sessionCleanup s).socketCloseCount := by
  refine ⟨?_, ?_, ?_, ?_⟩ <;> simp [sessionCleanup]

/-- C5 witness: cleanup idempotence at a concrete closing session state. -/
theorem claim_C5_cleanup_idempotent_witness :
    (SessionState.phase
      { phase := Phase.closing, cols := 80, rows := 24, ptyWrites := ["ls\n"],
        sent := [ServerMsg.output "hi"], socketOpen := true, childAlive := true,
        ptyReleased := false, inRegistry := true, childKillCount := 0,
        ptyReleaseCount := 0, socketCloseCount := 0 } = Phase.closing) ∧
    sessionCleanup (sessionCleanup
      { phase := Phase.closing, cols := 80, rows := 24, ptyWrites := ["ls\n"],
        sent := [ServerMsg.output "hi"], socketOpen := true, childAlive := true,
        ptyReleased := false, inRegistry := true, childKillCount := 0,
        ptyReleaseCount := 0, socketCloseCount := 0 }) = sessionCleanup
      { phase := Phase.closing, cols := 80, rows := 24, ptyWrites := ["ls\n"],
        sent := [ServerMsg.output "hi"], socketOpen := true, childAlive := true,
        ptyReleased := false, inRegistry := true, childKillCount := 0,
        ptyReleaseCount := 0, socketCloseCount := 0 } :=
  ⟨rfl,
   (claim_C5_cleanup_idempotent
     { phase := Phase.closing, cols := 80, rows := 24, ptyWrites := ["ls\n"],
       sent := [ServerMsg.output "hi"], socketOpen := true, childAlive := true,
       ptyReleased := false, inRegistry := true, childKillCount := 0,
       ptyReleaseCount := 0, socketCloseCount := 0 } rfl).1⟩

/-- C6: if binding the listening socket fails, the process writes a
diagnostic to standard error, exits with a non-zero status, and emits no
standard-output port line; and bind failure is the only process-fatal
error kind. -/
theorem claim_C6_bind_failure_fatal (req accepted : Nat) (bind : Nat → Option Nat)
    (hfail : bind req = none) :
    ((serverStartup req bind accepted).1.filter isStdoutEvent = []) ∧
    ((serverStartup req bind accepted).1.filter isStderrEvent ≠ []) ∧
    (∃ c, (serverStartup req bind accepted).2 = some c ∧ c ≠ 0) ∧
    (∀ k : ErrorKind, isFatal k = true ↔ k = ErrorKind.bindFailure) := by
  refine ⟨?_, ?_, ⟨1, ?_, one_ne_zero⟩, ?_⟩
  · simp [serverStartup, hfail, isStdoutEvent]
  · simp [serverStartup, hfail, isStderrEvent]
  · simp [serverStartup, hfail]
  · intro k
    cases k <;> simp [isFatal]

/-- C6 witness: bind failure behaviour at a concrete failing bind. -/
theorem claim_C6_bind_failure_fatal_witness :
    ((fun _ : Nat => (none : Option Nat)) 8080 = none) ∧
    ((serverStartup 8080 (fun _ => none) 0).1.filter isStdoutEvent = [] ∧
     (serverStartup 8080 (fun _ => none) 0).1.filter isStderrEvent ≠ [] ∧
     (∃ c, (serverStartup 8080 (fun _ => none) 0).2 = some c ∧ c ≠ 0) ∧
     (∀ k : ErrorKind, isFatal k = true ↔ k = ErrorKind.bindFailure)) :=
  ⟨rfl,
   (claim_C6_bind_failure_fatal 8080 0 (fun _ => none) rfl).1,
   (claim_C6_bind_failure_fatal 8080 0 (fun _ => none) rfl).2.1,
   (claim_C6_bind_failure_fatal 8080 0 (fun _ => none) rfl).2.2.1,
   (claim_C6_bind_failure_fatal 8080 0 (fun _ => none) rfl).2.2.2⟩

/-- C1: on every successful bind the server emits exactly one line to
standard output — a JSON object whose `port` field equals the actual bound
port — before accepting any connection, emits nothing else on standard
output, and does not exit; when port 0 was requested the announced port is
the non-zero OS-assigned one (hypothesis `hos` models the OS assigning a
non-zero ephemeral port). -/
theorem claim_C1_port_line_handshake (req p accepted : Nat) (bind : Nat → Option Nat)
    (hbind : bind req = some p) (hos : req = 0 → p ≠ 0) :
    ((serverStartup req bind accepted).1.filter isStdoutEvent =
        [StartEvent.stdoutLine (portLine p)]) ∧
    ((serverStartup req bind accepted).1.head? =
        some (StartEvent.stdoutLine (portLine p))) ∧
    (∃ fields, portLine p = Json.obj fields ∧
        getField fields "port" = some (Json.num (Int.ofNat p))) ∧
    ((serverStartup req bind accepted).2 = none) ∧
    (req = 0 → p ≠ 0) := by
  refine ⟨?_, ?_, ⟨[("port", Json.num (Int.ofNat p))], rfl, rfl⟩, ?_, hos⟩
  · simp [serverStartup, hbind, isStdoutEvent, List.filter_map, Function.comp_def]
  · simp [serverStartup, hbind]
  · simp [serverStartup, hbind]

/-- C1 witness: the handshake at a concrete successful bind of requested
port 0. -/
theorem claim_C1_port_line_handshake_witness :
    ((fun _ : Nat => some 45678) 0 = some 45678) ∧
    ((0 = 0 → (45678 : Nat) ≠ 0)) ∧
    ((serverStartup 0 (fun _ => some 45678) 2).1.filter isStdoutEvent =
        [StartEvent.stdoutLine (portLine 45678)] ∧
     (serverStartup 0 (fun _ => some 45678) 2).1.head? =
        some (StartEvent.stdoutLine (portLine 45678)) ∧
     (∃ fields, portLine 45678 = Json.obj fields ∧
        getField fields "port" = some (Json.num (Int.ofNat 45678))) ∧
     (serverStartup 0 (fun _ => some 45678) 2).2 = none ∧
     (0 = 0 → (45678 : Nat) ≠ 0)) :=
  ⟨rfl, fun _ => by decide,
   (claim_C1_port_line_handshake 0 45678 2 (fun _ => some 45678) rfl (fun _ => by decide)).1,
   (claim_C1_port_line_handshake 0 45678 2 (fun _ => some 45678) rfl (fun _ => by decide)).2.1,
   (claim_C1_port_line_handshake 0 45678 2 (fun _ => some 45678) rfl (fun _ => by decide)).2.2.1,
   (claim_C1_port_line_handshake 0 45678 2 (fun _ => some 45678) rfl (fun _ => by decide)).2.2.2.1,
   (claim_C1_port_line_handshake 0 45678 2 (fun _ => some 45678) rfl (fun _ => by decide)).2.2.2.2⟩

/-- C4: an incoming frame that is invalid JSON or lacks a recognized type
discriminant is dropped without any effect: the session state is unchanged,
it stays `Running`, and no output or exit message is produced. -/
theorem claim_C4_malformed_frame_dropped (s : SessionState) (f : Option Json)
    (hrun : s.phase = Phase.running) (hbad : decodeClientMsg f = none) :
    sessionStep s (SessionEvent.frame f) = s ∧
    (sessionStep s (SessionEvent.frame f)).phase = Phase.running ∧
    (sessionStep s (SessionEvent.frame f)).sent = s.sent := by
  have hstep : sessionStep s (SessionEvent.frame f) = s := by
    unfold sessionStep
    rw [hrun]
    simp [hbad]
  exact ⟨hstep, by rw [hstep, hrun], by rw [hstep]⟩

/-- C4 witness: a running session drops a frame whose JSON has an
unrecognized `type`. -/
theorem claim_C4_malformed_frame_dropped_witness :
    (SessionState.phase
      { phase := Phase.running, cols := 80, rows := 24, ptyWrites := [],
        sent := [], socketOpen := true, childAlive := true, ptyReleased := false,
        inRegistry := true, childKillCount := 0, ptyReleaseCount := 0,
        socketCloseCount := 0 } = Phase.running) ∧
    (decodeClientMsg (some (Json.obj [("type", Json.str "bogus")])) = none) ∧
    sessionStep
      { phase := Phase.running, cols := 80, rows := 24, ptyWrites := [],
        sent := [], socketOpen := true, childAlive := true, ptyReleased := false,
        inRegistry := true, childKillCount := 0, ptyReleaseCount := 0,
        socketCloseCount := 0 }
      (SessionEvent.frame (some (Json.obj [("type", Json.str "bogus")]))) =
      { phase := Phase.running, cols := 80, rows := 24, ptyWrites := [],
        sent := [], socketOpen := true, childAlive := true, ptyReleased := false,
        inRegistry := true, childKillCount := 0, ptyReleaseCount := 0,
        socketCloseCount := 0 } :=
  ⟨rfl, rfl,
   (claim_C4_malformed_frame_dropped
     { phase := Phase.running, cols := 80, rows := 24, ptyWrites := [],
       sent := [], socketOpen := true, childAlive := true, ptyReleased := false,
       inRegistry := true, childKillCount := 0, ptyReleaseCount := 0,
       socketCloseCount := 0 }
     (some (Json.obj [("type", Json.str "bogus")])) rfl rfl).1⟩

/-- C2: in a run of a running session whose events before the first
termination trigger are all non-terminating, a child exit with code `c`
makes the server send exactly one `exit c` message, as the last message
before the socket is closed and the session is closed; whereas if the
first termination trigger is the client closing the socket, no exit
message is ever sent and the session goes straight to cleanup. -/
theorem claim_C2_exit_message_once (s : SessionState) (evs1 evs2 : List SessionEvent) (c : Int)
    (hrun : s.phase = Phase.running) (hopen : s.socketOpen = true)
    (hnoexit : countExits s.sent = 0)
    (hpre : ∀ e ∈ evs1, isTermEvent e = false) :
    (countExits (runSession s (evs1 ++ SessionEvent.childExit c :: evs2)).sent = 1 ∧
     (runSession s (evs1 ++ SessionEvent.childExit c :: evs2)).sent.getLast? =
        some (ServerMsg.exit c) ∧
     (runSession s (evs1 ++ SessionEvent.childExit c :: evs2)).socketOpen = false ∧
     (runSession s (evs1 ++ SessionEvent.childExit c :: evs2)).phase = Phase.closed) ∧
    (countExits (runSession s (evs1 ++ SessionEvent.clientClose :: evs2)).sent = 0 ∧
     (runSession s (evs1 ++ SessionEvent.clientClose :: evs2)).socketOpen = false ∧
     (runSession s (evs1 ++ SessionEvent.clientClose :: evs2)).phase = Phase.closed) := by
  have hsplit : ∀ e : SessionEvent, runSession s (evs1 ++ e :: evs2) =
      runSession (sessionStep (runSession s evs1) e) evs2 := by
    intro e
    simp [runSession, List.foldl_append]
  have h1 := runSession_nonterm evs1 s hrun hpre
  have h1run : (runSession s evs1).phase = Phase.running := h1.1
  have h1open : (runSession s evs1).socketOpen = true := by rw [h1.2.1, hopen]
  have h1cnt : countExits (runSession s evs1).sent = 0 := by rw [h1.2.2, hnoexit]
  constructor
  · have hce := sessionStep_childExit (runSession s evs1) c h1run h1open
    have hclosed := runSession_closed evs2 _ hce.2.1
    rw [hsplit (SessionEvent.childExit c), hclosed]
    refine ⟨?_, ?_, hce.2.2, hce.2.1⟩
    · rw [hce.1, countExits_append_exit, h1cnt]
    · rw [hce.1, List.getLast?_concat]
  · have hcc := sessionStep_clientClose (runSession s evs1) h1run
    have hclosed := runSession_closed evs2 _ hcc.2.1
    rw [hsplit SessionEvent.clientClose, hclosed]
    exact ⟨by rw [hcc.1, h1cnt], hcc.2.2, hcc.2.1⟩

/-- C2 witness: a concrete session run where output is forwarded, the child
exits with code 3, and a late event is ignored. -/
theorem claim_C2_exit_message_once_witness :
    (SessionState.phase
      { phase := Phase.running, cols := 80, rows := 24, ptyWrites := [],
        sent := [], socketOpen := true, childAlive := true, ptyReleased := false,
        inRegistry := true, childKillCount := 0, ptyReleaseCount := 0,
        socketCloseCount := 0 } = Phase.running) ∧
    (SessionState.socketOpen
      { phase := Phase.running, cols := 80, rows := 24, ptyWrites := [],
        sent := [], socketOpen := true, childAlive := true, ptyReleased := false,
        inRegistry := true, childKillCount := 0, ptyReleaseCount := 0,
        socketCloseCount := 0 } = true) ∧
    (countExits (SessionState.sent
      { phase := Phase.running, cols := 80, rows := 24, ptyWrites := [],
        sent := [], socketOpen := true, childAlive := true, ptyReleased := false,
        inRegistry := true, childKillCount := 0, ptyReleaseCount := 0,
        socketCloseCount := 0 }) = 0) ∧
    (∀ e ∈ [SessionEvent.ptyOutput "hello"], isTermEvent e = false) ∧
    (countExits (runSession
      { phase := Phase.running, cols := 80, rows := 24, ptyWrites := [],
        sent := [], socketOpen := true, childAlive := true, ptyReleased := false,
        inRegistry := true, childKillCount := 0, ptyReleaseCount := 0,
        socketCloseCount := 0 }
      ([SessionEvent.ptyOutput "hello"] ++
        SessionEvent.childExit 3 :: [SessionEvent.ptyOutput "late"])).sent = 1 ∧
     (runSession
      { phase := Phase.running, cols := 80, rows := 24, ptyWrites := [],
        sent := [], socketOpen := true, childAlive := true, ptyReleased := false,
        inRegistry := true, childKillCount := 0, ptyReleaseCount := 0,
        socketCloseCount := 0 }
      ([SessionEvent.ptyOutput "hello"] ++
        SessionEvent.childExit 3 :: [SessionEvent.ptyOutput "late"])).sent.getLast? =
        some (ServerMsg.exit 3)) :=
  ⟨rfl, rfl, rfl, by intro e he; simp at he; rw [he]; rfl,
   (claim_C2_exit_message_once
     { phase := Phase.running, cols := 80, rows := 24, ptyWrites := [],
       sent := [], socketOpen := true, childAlive := true, ptyReleased := false,
       inRegistry := true, childKillCount := 0, ptyReleaseCount := 0,
       socketCloseCount := 0 }
     [SessionEvent.ptyOutput "hello"] [SessionEvent.ptyOutput "late"] 3
     rfl rfl rfl (by intro e he; simp at he; rw [he]; rfl)).1.1,
   (claim_C2_exit_message_once
     { phase := Phase.running, cols := 80, rows := 24, ptyWrites := [],
       sent := [], socketOpen := true, childAlive := true, ptyReleased := false,
       inRegistry := true, childKillCount := 0, ptyReleaseCount := 0,
       socketCloseCount := 0 }
     [SessionEvent.ptyOutput "hello"] [SessionEvent.ptyOutput "late"] 3
     rfl rfl rfl (by intro e he; simp at he; rw [he]; rfl)).1.2.1⟩

/-- C7: the registry holds an entry per session exactly while it is live:
ids are never duplicated and are always below the fresh-id counter (so a
session is inserted at most once), removal is idempotent (so a session is
removed at most once), after `n` accepted connections with a resolvable
shell the registry holds exactly `n` sessions in `Running`, and after all
`n` sockets close the registry is empty. -/
theorem claim_C7_registry_lifecycle (n : Nat) (evs : List ServerEvent) :
    ((registryIds (runServer serverStart evs)).Nodup ∧
     ∀ id ∈ registryIds (runServer serverStart evs),
       id < (runServer serverStart evs).nextId) ∧
    ((runServer serverStart (List.replicate n ServerEvent.connect)).registry.length = n ∧
     ∀ e ∈ (runServer serverStart (List.replicate n ServerEvent.connect)).registry,
       e.2 = Phase.running) ∧
    ((runServer (runServer serverStart (List.replicate n ServerEvent.connect))
        ((List.range n).map ServerEvent.socketClosed)).registry = []) ∧
    (∀ (s : ServerState) (id : Nat),
      serverStep (serverStep s (ServerEvent.socketClosed id)) (ServerEvent.socketClosed id) =
        serverStep s (ServerEvent.socketClosed id)) := by
  refine ⟨?_, ?_, ?_, ?_⟩
  · exact runServer_inv evs serverStart (by simp [registryIds, serverStart])
      (by simp [registryIds, serverStart])
  · rw [show serverStart = { nextId := 0, registry := [] } from rfl,
      runServer_connects n 0 []]
    constructor
    · simp
    · intro e he
      simp only [List.nil_append, List.mem_map] at he
      rcases he with ⟨i, _, rfl⟩
      rfl
  · rw [show serverStart = { nextId := 0, registry := [] } from rfl,
      runServer_connects n 0 []]
    simp only [List.nil_append, Nat.zero_add]
    rw [List.range_eq_range', runServer_close_all n 0 n]
  · intro s id
    simp [serverStep, List.filter_filter]
